import Mathlib

/-!
Shallow embedding of `pi_audio_debug.py`, a diagnostic harness that probes
an audio subsystem and prints pass/fail results.

Python statement suites are modelled as values of `Stmt := Output × Flow`:
the lines printed so far together with the control outcome of the suite
(fall through to the next statement, `return v`, or an uncaught exception).
External calls (imports, the sounddevice library, the sibling `config` and
`optimized_audio_processor` modules) are modelled by an environment `Env`
assigning each call either a result or a raised exception.
-/

namespace PiAudioDebug

/-- An exception, identified by its message (what `{e}` formats to). -/
abbrev Exn := String

/-- Printed output: one string per `print` call. -/
abbrev Output := List String

/-- The Python values the script returns from test functions. -/
inductive PyVal where
  | none
  | bool (b : Bool)
deriving DecidableEq, Repr

/-- Python truthiness of the values we model. -/
def PyVal.truthy : PyVal → Bool
  | PyVal.none => false
  | PyVal.bool b => b

/-- Control outcome of a statement suite. -/
inductive Flow where
  | next
  | ret (v : PyVal)
  | exn (e : Exn)
deriving DecidableEq, Repr

/-- A statement suite's effect: printed lines and the control outcome. -/
abbrev Stmt := Output × Flow

/-- A suite that prints nothing and falls through. -/
def skip : Stmt := ([], Flow.next)

/-- `print(s)`. -/
def pyPrint (s : String) : Stmt := ([s], Flow.next)

/-- `return v`. -/
def pyRet (v : PyVal) : Stmt := ([], Flow.ret v)

/-- Sequencing of suites: `b` runs only if `a` falls through. -/
def seq (a b : Stmt) : Stmt :=
  match a with
  | (out, Flow.next) => (out ++ b.1, b.2)
  | other => other

/-- Evaluate an expression that may raise; on success continue with `k`. -/
def pyEval {α : Type} (x : Except Exn α) (k : α → Stmt) : Stmt :=
  match x with
  | Except.ok a => k a
  | Except.error e => ([], Flow.exn e)

/-- One `except` clause: which exceptions it matches, and its body. -/
structure Handler where
  sel : Exn → Bool
  run : Exn → Stmt

/-- Python handler selection: the first matching clause runs; if none
matches the exception propagates. -/
def runHandlers : List Handler → Exn → Stmt
  | [], e => ([], Flow.exn e)
  | h :: rest, e => if h.sel e then h.run e else runHandlers rest e

/-- `try: body except...`: handlers see only exceptions from the body. -/
def tryStmt (body : Stmt) (handlers : List Handler) : Stmt :=
  match body with
  | (out, Flow.exn e) =>
    let r := runHandlers handlers e
    (out ++ r.1, r.2)
  | other => other

/-- Calling a Python function whose body is the given suite: falling off
the end returns `None`; an uncaught exception propagates to the caller. -/
def callFn (body : Stmt) : Output × Except Exn PyVal :=
  match body with
  | (out, Flow.ret v) => (out, Except.ok v)
  | (out, Flow.next) => (out, Except.ok PyVal.none)
  | (out, Flow.exn e) => (out, Except.error e)

/-- A device dict as returned by `sd.query_devices()`; each key access may
raise (e.g. a `KeyError`), so every field is an `Except`. -/
structure Device where
  name : Except Exn String
  max_inputs : Except Exn String
  max_outputs : Except Exn String
  default_samplerate : Except Exn String

/-- The attributes of a `Config` object the script reads. -/
structure ConfigRec where
  is_pi : Bool
  sample_rate : String
  chunk_size : String
  default_tempo : String

/-- The dict returned by `processor.get_status()`: the three keys the
script reads, plus whatever other keys the dict carries (never read). -/
structure Status where
  buffer_size : String
  sample_rate : String
  active_effects : String
  other : List (String × String)

/-- Outcome of every external call the script can make.  `process_audio`
stands for the effect-processing behaviour of `OptimizedAudioProcessor`,
which the script never invokes. -/
structure Env where
  import_sounddevice : Except Exn Unit
  import_config : Except Exn Unit
  import_processor : Except Exn Unit
  query_devices : Except Exn (List Device)
  play : Except Exn Unit
  sd_wait : Except Exn Unit
  config_init : Except Exn ConfigRec
  processor_init : Except Exn Unit
  get_status : Except Exn Status
  process_audio : Except Exn Unit
  input_stream : Except Exn Unit
  output_stream : Except Exn Unit

/-- Python's `needle in hay` on strings: substring containment. -/
def strContains (hay needle : String) : Bool :=
  (List.range (hay.data.length + 1)).any fun i =>
    List.isPrefixOf needle.data (hay.data.drop i)

/-- Python's `s.lower()`. -/
def strLower (s : String) : String := String.mk (s.data.map Char.toLower)

/-- `except Exception as e: print(msg + e); return False` — the shape of
every handler in the script. -/
def failHandler (msg : String) : Handler :=
  Handler.mk (fun _ => true) fun e =>
    seq (pyPrint (msg ++ e)) (pyRet (PyVal.bool false))

/-! ## test_imports (lines 13-43), embedded literally, dead code included -/

/-- First `try` of `test_imports`: `import sounddevice as sd`. -/
def imports_try1 (env : Env) : Stmt :=
  tryStmt (pyEval env.import_sounddevice fun _ => pyPrint "✅ sounddevice imported")
    [failHandler "❌ sounddevice import failed: "]

/-- Second `try` of `test_imports`: `from config import Config`. -/
def imports_try2 (env : Env) : Stmt :=
  tryStmt (pyEval env.import_config fun _ => pyPrint "✅ config imported")
    [failHandler "❌ config import failed: "]

/-- Third `try` of `test_imports`, with the statements that follow the
first clause's `return False` (a duplicated import and print) and the
duplicated second `except Exception` clause, exactly as in the source. -/
def imports_try3 (env : Env) : Stmt :=
  tryStmt (pyEval env.import_processor fun _ => pyPrint "✅ OptimizedAudioProcessor imported")
    [Handler.mk (fun _ => true) fun e =>
      seq (pyPrint ("❌ OptimizedAudioProcessor import failed: " ++ e))
        (seq (pyRet (PyVal.bool false))
          (pyEval env.import_processor fun _ => pyPrint "✅ OptimizedAudioProcessor imported")),
     failHandler "❌ OptimizedAudioProcessor import failed: "]

/-- `test_imports` (lines 13-43). -/
def test_imports (env : Env) : Stmt :=
  seq (pyPrint "🔍 Testing imports...")
    (seq (imports_try1 env)
      (seq (imports_try2 env)
        (seq (imports_try3 env)
          (pyRet (PyVal.bool true)))))

/-! ## test_audio_devices (lines 45-72) -/

/-- Body of `for i, device in enumerate(devices)` (lines 55-59). -/
def deviceLoopBody (i : Nat) (d : Device) : Stmt :=
  pyEval d.name fun n =>
    seq (pyPrint ("  " ++ toString i ++ ": " ++ n))
      (pyEval d.max_inputs fun mi =>
        seq (pyPrint ("     Input channels: " ++ mi))
          (pyEval d.max_outputs fun mo =>
            seq (pyPrint ("     Output channels: " ++ mo))
              (pyEval d.default_samplerate fun sr =>
                pyPrint ("     Default sample rate: " ++ sr))))

/-- A Python `for` loop over a list with an index, `enumerate`-style:
each iteration may print, fall through to the next one, `return`, or
raise, in which case the remaining iterations do not run. -/
def pyForAux (body : Nat → Device → Stmt) : Nat → List Device → Stmt
  | _, [] => skip
  | i, d :: ds =>
    match body i d with
    | (out, Flow.next) =>
      let r := pyForAux body (i + 1) ds
      (out ++ r.1, r.2)
    | other => other

/-- The filter condition of line 62:
`'scarlett' in d['name'].lower() or '2i2' in d['name'].lower()`. -/
def scarlettCond (d : Device) : Except Exn Bool :=
  match d.name with
  | Except.error e => Except.error e
  | Except.ok n =>
    Except.ok (strContains (strLower n) "scarlett" || strContains (strLower n) "2i2")

/-- A Python list comprehension with a condition that may raise. -/
def pyFilter (cond : Device → Except Exn Bool) : List Device → Except Exn (List Device)
  | [] => Except.ok []
  | d :: ds =>
    match cond d with
    | Except.error e => Except.error e
    | Except.ok b =>
      match pyFilter cond ds with
      | Except.error e => Except.error e
      | Except.ok rest => Except.ok (if b then d :: rest else rest)

/-- Lines 61-66: build `scarlett_devices` and report the first match or a
"not found" warning. -/
def scarlettReport (devices : List Device) : Stmt :=
  pyEval (pyFilter scarlettCond devices) fun scarlett_devices =>
    match scarlett_devices with
    | [] => pyPrint "\n⚠️  Scarlett 2i2 not found - check USB connection"
    | d0 :: _ => pyEval d0.name fun n => pyPrint ("\n✅ Found Scarlett 2i2: " ++ n)

/-- The `try` suite of `test_audio_devices` (lines 50-68). -/
def audio_devices_suite (env : Env) : Stmt :=
  pyEval env.import_sounddevice fun _ =>
    pyEval env.query_devices fun devices =>
      seq (pyPrint ("Found " ++ toString devices.length ++ " audio devices:"))
        (seq (pyForAux deviceLoopBody 0 devices)
          (seq (scarlettReport devices)
            (pyRet (PyVal.bool true))))

/-- `test_audio_devices` (lines 45-72). -/
def test_audio_devices (env : Env) : Stmt :=
  seq (pyPrint "\n🎧 Testing audio devices...")
    (tryStmt (audio_devices_suite env) [failHandler "❌ Audio device test failed: "])

/-! ## test_basic_audio (lines 74-96) -/

/-- The `try` suite of `test_basic_audio`; the numpy tone construction is
pure and cannot raise, so only `sd.play` and `sd.wait` are external. -/
def basic_audio_suite (env : Env) : Stmt :=
  pyEval env.import_sounddevice fun _ =>
    seq (pyPrint "Testing audio output...")
      (pyEval env.play fun _ =>
        pyEval env.sd_wait fun _ =>
          seq (pyPrint "✅ Audio output test passed")
            (pyRet (PyVal.bool true)))

/-- `test_basic_audio` (lines 74-96). -/
def test_basic_audio (env : Env) : Stmt :=
  seq (pyPrint "\n🔊 Testing basic audio...")
    (tryStmt (basic_audio_suite env) [failHandler "❌ Basic audio test failed: "])

/-! ## test_config (lines 98-116) -/

/-- The `try` suite of `test_config` (lines 102-112). -/
def config_suite (env : Env) : Stmt :=
  pyEval env.import_config fun _ =>
    pyEval env.config_init fun config =>
      seq (pyPrint "✅ Config loaded")
        (seq (pyPrint ("   Platform: " ++ (if config.is_pi then "Pi" else "Other")))
          (seq (pyPrint ("   Sample rate: " ++ config.sample_rate))
            (seq (pyPrint ("   Chunk size: " ++ config.chunk_size))
              (seq (pyPrint ("   Default tempo: " ++ config.default_tempo))
                (pyRet (PyVal.bool true))))))

/-- `test_config` (lines 98-116). -/
def test_config (env : Env) : Stmt :=
  seq (pyPrint "\n⚙️  Testing configuration...")
    (tryStmt (config_suite env) [failHandler "❌ Config test failed: "])

/-! ## test_audio_processor (lines 122-144) -/

/-- The `try` suite of `test_audio_processor` (lines 126-140). -/
def processor_suite (env : Env) : Stmt :=
  pyEval env.import_processor fun _ =>
    pyEval env.import_config fun _ =>
      pyEval env.config_init fun _ =>
        pyEval env.processor_init fun _ =>
          seq (pyPrint "✅ OptimizedAudioProcessor initialized")
            (pyEval env.get_status fun status =>
              seq (pyPrint ("   Buffer size: " ++ status.buffer_size))
                (seq (pyPrint ("   Sample rate: " ++ status.sample_rate))
                  (seq (pyPrint ("   Active effects: " ++ status.active_effects))
                    (pyRet (PyVal.bool true)))))

/-- `test_audio_processor` (lines 122-144). -/
def test_audio_processor (env : Env) : Stmt :=
  seq (pyPrint "\n🎵 Testing audio processor...")
    (tryStmt (processor_suite env) [failHandler "❌ Audio processor test failed: "])

/-! ## test_audio_stream (lines 146-179) -/

/-- The `try` suite of `test_audio_stream` (lines 150-175). -/
def stream_suite (env : Env) : Stmt :=
  pyEval env.import_sounddevice fun _ =>
    seq (pyPrint "Testing input stream...")
      (pyEval env.input_stream fun _ =>
        seq (pyPrint "✅ Input stream created successfully")
          (seq (pyPrint "Testing output stream...")
            (pyEval env.output_stream fun _ =>
              seq (pyPrint "✅ Output stream created successfully")
                (pyRet (PyVal.bool true)))))

/-- `test_audio_stream` (lines 146-179). -/
def test_audio_stream (env : Env) : Stmt :=
  seq (pyPrint "\n🌊 Testing audio stream...")
    (tryStmt (stream_suite env) [failHandler "❌ Audio stream test failed: "])

/-! ## main (lines 181-239) -/

/-- The `tests` list of lines 189-198, in source order. -/
def testList : List (String × (Env → Stmt)) :=
  [("Imports", test_imports),
   ("Audio Devices", test_audio_devices),
   ("Basic Audio", test_basic_audio),
   ("Configuration", test_config),
   ("Audio Processor", test_audio_processor),
   ("Audio Streams", test_audio_stream)]

/-- One iteration of main's loop (lines 202-208): run the test; on an
uncaught exception print the crash line and record `False`. -/
def recordOutcome (name : String) (r : Output × Except Exn PyVal) :
    Output × (String × PyVal) :=
  match r with
  | (out, Except.ok v) => (out, (name, v))
  | (out, Except.error e) =>
    (out ++ ["❌ " ++ name ++ " test crashed: " ++ e], (name, PyVal.bool false))

/-- Main's test loop (lines 200-208): output produced and the `results`
list, in order. -/
def runTestsLoop (env : Env) : List (String × (Env → Stmt)) → Output × List (String × PyVal)
  | [] => ([], [])
  | (name, f) :: rest =>
    let r := recordOutcome name (callFn (f env))
    let rest2 := runTestsLoop env rest
    (r.1 ++ rest2.1, r.2 :: rest2.2)

/-- Main's test loop applied to the script's `tests` list. -/
def runAll (env : Env) : Output × List (String × PyVal) := runTestsLoop env testList

/-- Python's `f"{name:20}"`: left-justify in a field of width 20. -/
def padTo20 (s : String) : String := s.pushn ' ' (20 - s.length)

/-- The summary loop of lines 218-222: the printed lines and the final
value of `passed`. -/
def summaryLoop : List (String × PyVal) → Output × Nat
  | [] => ([], 0)
  | (name, result) :: rest =>
    let line := padTo20 name ++ ": " ++ (if result.truthy then "✅ PASS" else "❌ FAIL")
    let r := summaryLoop rest
    (line :: r.1, (if result.truthy then 1 else 0) + r.2)

/-- `"=" * 60`. -/
def eqLine : String := "".pushn '=' 60

/-- The banner printed at the top of `main` (lines 183-187). -/
def mainHeader : Output :=
  ["🔍 RASPBERRY PI AUDIO DIAGNOSTICS", eqLine,
   "This script will test each component to find the issue",
   "Run this on your Pi with the Scarlett 2i2 connected", ""]

/-- The closing message of lines 226-236, branching on `passed == total`. -/
def closingLines (passed total : Nat) : Output :=
  if passed = total then
    ["🎉 All tests passed! The system should work.",
     "💡 If effects still don't work, try the interactive CLI:",
     "   python3 interactive_cli.py"]
  else
    ["❌ Some tests failed. Check the errors above.",
     "💡 Common issues:",
     "   - USB audio interface not connected",
     "   - ALSA configuration problems",
     "   - Permission issues",
     "   - Run: python3 fix_pi_audio.py --fix"]

/-- `main` (lines 181-236): all printed output. -/
def main (env : Env) : Output :=
  let r := runAll env
  let s := summaryLoop r.2
  let passed := s.2
  let total := r.2.length
  mainHeader ++ r.1 ++
    ["\n" ++ eqLine, "📊 TEST RESULTS SUMMARY", eqLine] ++
    s.1 ++
    ["\nOverall: " ++ toString passed ++ "/" ++ toString total ++ " tests passed"] ++
    closingLines passed total

/-! ## Basic lemmas about the suite semantics -/

/-- `Except.isOk` as a plain Bool, used to phrase success conditions. -/
def okB {α : Type} : Except Exn α → Bool
  | Except.ok _ => true
  | Except.error _ => false

/-- A test-function call result that is a genuine Boolean. -/
def resultIsBool (r : Output × Except Exn PyVal) : Bool :=
  match r.2 with
  | Except.ok (PyVal.bool _) => true
  | _ => false

/-- An entry value recorded by main that is a genuine Boolean. -/
def isBoolVal : PyVal → Bool
  | PyVal.bool _ => true
  | PyVal.none => false

/-- The control outcomes a guarded test suite can have: it returned
`True`, or it raised. -/
def goodFlow (f : Flow) : Prop :=
  f = Flow.ret (PyVal.bool true) ∨ ∃ e, f = Flow.exn e

theorem seq_next (out : Output) (b : Stmt) : seq (out, Flow.next) b = (out ++ b.1, b.2) := rfl

theorem seq_ret (out : Output) (v : PyVal) (b : Stmt) :
    seq (out, Flow.ret v) b = (out, Flow.ret v) := rfl

theorem seq_exn (out : Output) (e : Exn) (b : Stmt) :
    seq (out, Flow.exn e) b = (out, Flow.exn e) := rfl

/-- A guarded test always yields a Boolean: the suite either returns
`True` (passed through unchanged) or raises (handled, returning `False`). -/
theorem goodFlow_resultIsBool (p msg : String) (suite : Stmt) (h : goodFlow suite.2) :
    resultIsBool (callFn (seq (pyPrint p) (tryStmt suite [failHandler msg]))) = true := by
  rcases suite with ⟨out, fl⟩
  rcases h with h | ⟨e, h⟩ <;> simp only at h <;> subst h <;>
    simp [callFn, seq, tryStmt, pyPrint, runHandlers, failHandler, pyRet, resultIsBool]

/-- When the suite of a guarded test raises `e`, the test prints the
failure message carrying `e` after the suite's partial output and returns
`False`. -/
theorem guarded_exn (p msg : String) (suite : Stmt) (out : Output) (e : Exn)
    (h : suite = (out, Flow.exn e)) :
    callFn (seq (pyPrint p) (tryStmt suite [failHandler msg])) =
      (p :: out ++ [msg ++ e], Except.ok (PyVal.bool false)) := by
  subst h
  simp [callFn, seq, tryStmt, pyPrint, runHandlers, failHandler, pyRet]

/-- When the suite of a guarded test returns `True`, the test returns
`True` with the suite's output after the banner. -/
theorem guarded_ok (p msg : String) (suite : Stmt) (out : Output)
    (h : suite = (out, Flow.ret (PyVal.bool true))) :
    callFn (seq (pyPrint p) (tryStmt suite [failHandler msg])) =
      (p :: out, Except.ok (PyVal.bool true)) := by
  subst h
  simp [callFn, seq, tryStmt, pyPrint]

/-! ## Flow classification of each suite -/

theorem deviceLoopBody_flow (i : Nat) (d : Device) :
    (deviceLoopBody i d).2 = Flow.next ∨ ∃ e, (deviceLoopBody i d).2 = Flow.exn e := by
  rcases d with ⟨n, mi, mo, sr⟩
  cases n <;> cases mi <;> cases mo <;> cases sr <;>
    simp [deviceLoopBody, pyEval, seq, pyPrint]

theorem pyForAux_flow (ds : List Device) (i : Nat) :
    (pyForAux deviceLoopBody i ds).2 = Flow.next ∨
    ∃ e, (pyForAux deviceLoopBody i ds).2 = Flow.exn e := by
  induction ds generalizing i with
  | nil => simp [pyForAux, skip]
  | cons d ds ih =>
    have hb := deviceLoopBody_flow i d
    rcases h : deviceLoopBody i d with ⟨out, fl⟩
    rw [h] at hb
    rcases hb with hb | ⟨e, hb⟩ <;> simp only at hb <;> subst hb <;>
      simp only [pyForAux, h]
    · exact ih (i + 1)
    · exact Or.inr ⟨e, rfl⟩

theorem scarlettReport_flow (devices : List Device) :
    (scarlettReport devices).2 = Flow.next ∨
    ∃ e, (scarlettReport devices).2 = Flow.exn e := by
  cases h : pyFilter scarlettCond devices with
  | error e => simp [scarlettReport, pyEval, h]
  | ok l =>
    cases l with
    | nil => simp [scarlettReport, pyEval, h, pyPrint]
    | cons d0 rest =>
      cases hn : d0.name <;> simp [scarlettReport, pyEval, h, hn, pyPrint]

theorem audio_devices_suite_flow (env : Env) : goodFlow (audio_devices_suite env).2 := by
  unfold goodFlow
  cases hsd : env.import_sounddevice with
  | error e => simp [audio_devices_suite, pyEval, hsd]
  | ok u =>
    cases hq : env.query_devices with
    | error e => simp [audio_devices_suite, pyEval, hsd, hq]
    | ok devices =>
      have hfor := pyForAux_flow devices 0
      rcases h1 : pyForAux deviceLoopBody 0 devices with ⟨outL, flL⟩
      rw [h1] at hfor
      have hrep := scarlettReport_flow devices
      rcases h2 : scarlettReport devices with ⟨outR, flR⟩
      rw [h2] at hrep
      rcases hfor with hf | ⟨e, hf⟩ <;> simp only at hf <;> subst hf
      · rcases hrep with hr | ⟨e, hr⟩ <;> simp only at hr <;> subst hr <;>
          simp [audio_devices_suite, pyEval, hsd, hq, h1, h2, seq, pyPrint, pyRet]
      · simp [audio_devices_suite, pyEval, hsd, hq, h1, seq, pyPrint]

theorem basic_audio_suite_flow (env : Env) : goodFlow (basic_audio_suite env).2 := by
  unfold goodFlow
  cases hsd : env.import_sounddevice <;>
    cases hp : env.play <;>
      cases hw : env.sd_wait <;>
        simp [basic_audio_suite, pyEval, hsd, hp, hw, seq, pyPrint, pyRet]

theorem config_suite_flow (env : Env) : goodFlow (config_suite env).2 := by
  unfold goodFlow
  cases hc : env.import_config <;>
    cases hi : env.config_init <;>
      simp [config_suite, pyEval, hc, hi, seq, pyPrint, pyRet]

theorem processor_suite_flow (env : Env) : goodFlow (processor_suite env).2 := by
  unfold goodFlow
  cases hp : env.import_processor <;>
    cases hc : env.import_config <;>
      cases hi : env.config_init <;>
        cases hpi : env.processor_init <;>
          cases hs : env.get_status <;>
            simp [processor_suite, pyEval, hp, hc, hi, hpi, hs, seq, pyPrint, pyRet]

theorem stream_suite_flow (env : Env) : goodFlow (stream_suite env).2 := by
  unfold goodFlow
  cases hsd : env.import_sounddevice <;>
    cases hi : env.input_stream <;>
      cases ho : env.output_stream <;>
        simp [stream_suite, pyEval, hsd, hi, ho, seq, pyPrint, pyRet]

/-! ## test_imports: computation and dead code -/

/-- `test_imports` without the unreachable statements: the duplicated
import/print after `return False` and the duplicated `except` clause. -/
def test_imports_clean (env : Env) : Stmt :=
  seq (pyPrint "🔍 Testing imports...")
    (seq (tryStmt (pyEval env.import_sounddevice fun _ => pyPrint "✅ sounddevice imported")
        [failHandler "❌ sounddevice import failed: "])
      (seq (tryStmt (pyEval env.import_config fun _ => pyPrint "✅ config imported")
          [failHandler "❌ config import failed: "])
        (seq (tryStmt (pyEval env.import_processor fun _ => pyPrint "✅ OptimizedAudioProcessor imported")
            [failHandler "❌ OptimizedAudioProcessor import failed: "])
          (pyRet (PyVal.bool true)))))

theorem test_imports_eq_clean (env : Env) : test_imports env = test_imports_clean env := by
  rcases env with ⟨isd, icf, ipr, qd, pl, w, ci, pini, gs, pa, inp, outp⟩
  cases isd <;> cases icf <;> cases ipr <;>
    simp [test_imports, test_imports_clean, imports_try1, imports_try2, imports_try3,
      failHandler, tryStmt, runHandlers, pyEval, seq, pyPrint, pyRet]

theorem test_imports_result (env : Env) :
    (callFn (test_imports env)).2 =
      Except.ok (PyVal.bool
        (okB env.import_sounddevice && okB env.import_config && okB env.import_processor)) := by
  rcases env with ⟨isd, icf, ipr, qd, pl, w, ci, pini, gs, pa, inp, outp⟩
  cases isd <;> cases icf <;> cases ipr <;>
    simp [test_imports, imports_try1, imports_try2, imports_try3, okB,
      failHandler, tryStmt, runHandlers, pyEval, seq, pyPrint, pyRet, callFn]

/-- C8: the statements after `return False` in the third `except` clause
and the duplicated second `except Exception` clause are dead: the function
behaves exactly like its cleaned-up version on every environment, and it
returns `True` precisely when all three imports succeed, `False` as soon
as one of them fails. -/
theorem claim_C8 (env : Env) :
    test_imports env = test_imports_clean env ∧
    (callFn (test_imports env)).2 =
      Except.ok (PyVal.bool
        (okB env.import_sounddevice && okB env.import_config && okB env.import_processor)) :=
  ⟨test_imports_eq_clean env, test_imports_result env⟩

/-! ## Results of the six tests are Booleans -/

theorem test_imports_resultIsBool (env : Env) :
    resultIsBool (callFn (test_imports env)) = true := by
  have h := test_imports_result env
  rcases hc : callFn (test_imports env) with ⟨out, r⟩
  rw [hc] at h
  simp only at h
  subst h
  rfl

theorem test_audio_devices_resultIsBool (env : Env) :
    resultIsBool (callFn (test_audio_devices env)) = true :=
  goodFlow_resultIsBool _ _ _ (audio_devices_suite_flow env)

theorem test_basic_audio_resultIsBool (env : Env) :
    resultIsBool (callFn (test_basic_audio env)) = true :=
  goodFlow_resultIsBool _ _ _ (basic_audio_suite_flow env)

theorem test_config_resultIsBool (env : Env) :
    resultIsBool (callFn (test_config env)) = true :=
  goodFlow_resultIsBool _ _ _ (config_suite_flow env)

theorem test_audio_processor_resultIsBool (env : Env) :
    resultIsBool (callFn (test_audio_processor env)) = true :=
  goodFlow_resultIsBool _ _ _ (processor_suite_flow env)

theorem test_audio_stream_resultIsBool (env : Env) :
    resultIsBool (callFn (test_audio_stream env)) = true :=
  goodFlow_resultIsBool _ _ _ (stream_suite_flow env)

/-- Whatever a test call produced, the recorded entry keeps its name. -/
theorem recordOutcome_name (name : String) (r : Output × Except Exn PyVal) :
    (recordOutcome name r).2.1 = name := by
  rcases r with ⟨out, x⟩
  cases x <;> rfl

/-- A Boolean-valued call is recorded as a Boolean (a crash is recorded
as `False`, also a Boolean). -/
theorem recordOutcome_isBool (name : String) (r : Output × Except Exn PyVal)
    (h : resultIsBool r = true) : isBoolVal (recordOutcome name r).2.2 = true := by
  rcases r with ⟨out, x⟩
  cases x with
  | ok v =>
    cases v with
    | none => simp [resultIsBool] at h
    | bool b => rfl
  | error e => rfl

/-- C10: every test function returns exactly `True` or `False` on every
execution path — never `None`, and never by raising — so every entry main
appends to `results` pairs a test name with a genuine Boolean. -/
theorem claim_C10 (env : Env) :
    resultIsBool (callFn (test_imports env)) = true ∧
    resultIsBool (callFn (test_audio_devices env)) = true ∧
    resultIsBool (callFn (test_basic_audio env)) = true ∧
    resultIsBool (callFn (test_config env)) = true ∧
    resultIsBool (callFn (test_audio_processor env)) = true ∧
    resultIsBool (callFn (test_audio_stream env)) = true ∧
    ((runAll env).2.all fun en => isBoolVal en.2) = true := by
  refine ⟨test_imports_resultIsBool env, test_audio_devices_resultIsBool env,
    test_basic_audio_resultIsBool env, test_config_resultIsBool env,
    test_audio_processor_resultIsBool env, test_audio_stream_resultIsBool env, ?_⟩
  simp only [runAll, testList, runTestsLoop, List.all_cons, List.all_nil, Bool.and_true,
    Bool.and_eq_true]
  exact ⟨recordOutcome_isBool _ _ (test_imports_resultIsBool env),
    recordOutcome_isBool _ _ (test_audio_devices_resultIsBool env),
    recordOutcome_isBool _ _ (test_basic_audio_resultIsBool env),
    recordOutcome_isBool _ _ (test_config_resultIsBool env),
    recordOutcome_isBool _ _ (test_audio_processor_resultIsBool env),
    recordOutcome_isBool _ _ (test_audio_stream_resultIsBool env)⟩

/-- C2: main runs exactly the six tests, each once, in source order:
the recorded names are the six test names in order, the recorded entries
are the per-test outcomes in that order, and the printed output is the
concatenation of the six tests' outputs in the same order. -/
theorem claim_C2 (env : Env) :
    (runAll env).2.map Prod.fst =
      ["Imports", "Audio Devices", "Basic Audio", "Configuration",
       "Audio Processor", "Audio Streams"] ∧
    (runAll env).2 =
      [(recordOutcome "Imports" (callFn (test_imports env))).2,
       (recordOutcome "Audio Devices" (callFn (test_audio_devices env))).2,
       (recordOutcome "Basic Audio" (callFn (test_basic_audio env))).2,
       (recordOutcome "Configuration" (callFn (test_config env))).2,
       (recordOutcome "Audio Processor" (callFn (test_audio_processor env))).2,
       (recordOutcome "Audio Streams" (callFn (test_audio_stream env))).2] ∧
    (runAll env).1 =
      (recordOutcome "Imports" (callFn (test_imports env))).1 ++
      ((recordOutcome "Audio Devices" (callFn (test_audio_devices env))).1 ++
       ((recordOutcome "Basic Audio" (callFn (test_basic_audio env))).1 ++
        ((recordOutcome "Configuration" (callFn (test_config env))).1 ++
         ((recordOutcome "Audio Processor" (callFn (test_audio_processor env))).1 ++
          (recordOutcome "Audio Streams" (callFn (test_audio_stream env))).1)))) := by
  refine ⟨?_, ?_, ?_⟩
  · simp [runAll, testList, runTestsLoop, recordOutcome_name]
  · simp [runAll, testList, runTestsLoop]
  · simp [runAll, testList, runTestsLoop]

/-! ## The summary loop -/

theorem summaryLoop_fst (rs : List (String × PyVal)) :
    (summaryLoop rs).1 =
      rs.map fun en =>
        padTo20 en.1 ++ ": " ++ (if en.2.truthy then "✅ PASS" else "❌ FAIL") := by
  induction rs with
  | nil => rfl
  | cons en rest ih =>
    rcases en with ⟨name, result⟩
    simp [summaryLoop, ih]

theorem summaryLoop_snd (rs : List (String × PyVal)) :
    (summaryLoop rs).2 = (rs.filter fun en => en.2.truthy).length := by
  induction rs with
  | nil => rfl
  | cons en rest ih =>
    rcases en with ⟨name, result⟩
    by_cases h : result.truthy = true <;>
      simp [summaryLoop, List.filter, h, ih, Nat.add_comm]

theorem runAll_length (env : Env) : (runAll env).2.length = 6 := by
  simp [runAll, testList, runTestsLoop]

/-- C3: the summary main prints reports `✅ PASS` exactly for the entries
whose recorded result is truthy and `❌ FAIL` otherwise, one line per
recorded test in execution order; the `passed` count is the number of
truthy results and the total is the number of tests run, which is 6. -/
theorem claim_C3 (env : Env) :
    (summaryLoop (runAll env).2).1 =
      (runAll env).2.map (fun en =>
        padTo20 en.1 ++ ": " ++ (if en.2.truthy then "✅ PASS" else "❌ FAIL")) ∧
    (summaryLoop (runAll env).2).2 =
      ((runAll env).2.filter fun en => en.2.truthy).length ∧
    (runAll env).2.length = 6 ∧
    (runAll env).2.map Prod.fst =
      ["Imports", "Audio Devices", "Basic Audio", "Configuration",
       "Audio Processor", "Audio Streams"] := by
  refine ⟨summaryLoop_fst _, summaryLoop_snd _, runAll_length env, ?_⟩
  simp [runAll, testList, runTestsLoop, recordOutcome_name]

/-! ## Exceptions are converted into printed failure messages -/

theorem isPrefixOf_self (l : List Char) : List.isPrefixOf l l = true := by
  induction l with
  | nil => rfl
  | cons a as ih => simp [List.isPrefixOf, ih]

/-- A string contains any of its suffixes; in particular a failure line
`msg ++ e` contains the exception text `e`. -/
theorem strContains_append (a b : String) : strContains (a ++ b) b = true := by
  unfold strContains
  refine List.any_eq_true.mpr ⟨a.data.length, ?_, ?_⟩
  · rw [List.mem_range, String.data_append, List.length_append]
    omega
  · rw [String.data_append, List.drop_left]
    exact isPrefixOf_self b.data

/-- When a guarded suite raises, the printed failure line contains the
exception text. -/
theorem guarded_exn_contains (p msg : String) (suite : Stmt) (out : Output) (e : Exn)
    (h : suite = (out, Flow.exn e)) :
    ((callFn (seq (pyPrint p) (tryStmt suite [failHandler msg]))).1.any
      fun l => strContains l e) = true := by
  rw [guarded_exn p msg suite out e h]
  refine List.any_eq_true.mpr ⟨msg ++ e, ?_, strContains_append msg e⟩
  simp

/-- The exception of the first failing import in `test_imports`, if any. -/
def imports_firstExn (env : Env) : Option Exn :=
  match env.import_sounddevice with
  | Except.error e => some e
  | Except.ok _ =>
    match env.import_config with
    | Except.error e => some e
    | Except.ok _ =>
      match env.import_processor with
      | Except.error e => some e
      | Except.ok _ => none

theorem imports_exn (env : Env) (e : Exn) (h : imports_firstExn env = some e) :
    (callFn (test_imports env)).2 = Except.ok (PyVal.bool false) ∧
    ((callFn (test_imports env)).1.any fun l => strContains l e) = true := by
  rcases env with ⟨isd, icf, ipr, qd, pl, w, ci, pini, gs, pa, inp, outp⟩
  cases isd with
  | error e1 =>
    simp only [imports_firstExn, Option.some.injEq] at h
    subst h
    constructor
    · simp [test_imports, imports_try1, imports_try2, imports_try3, failHandler,
        tryStmt, runHandlers, pyEval, seq, pyPrint, pyRet, callFn]
    · simp [test_imports, imports_try1, imports_try2, imports_try3, failHandler,
        tryStmt, runHandlers, pyEval, seq, pyPrint, pyRet, callFn,
        strContains_append "❌ sounddevice import failed: " e1]
  | ok u =>
    cases icf with
    | error e2 =>
      simp only [imports_firstExn, Option.some.injEq] at h
      subst h
      constructor
      · simp [test_imports, imports_try1, imports_try2, imports_try3, failHandler,
          tryStmt, runHandlers, pyEval, seq, pyPrint, pyRet, callFn]
      · simp [test_imports, imports_try1, imports_try2, imports_try3, failHandler,
          tryStmt, runHandlers, pyEval, seq, pyPrint, pyRet, callFn,
          strContains_append "❌ config import failed: " e2]
    | ok u2 =>
      cases ipr with
      | error e3 =>
        simp only [imports_firstExn, Option.some.injEq] at h
        subst h
        constructor
        · simp [test_imports, imports_try1, imports_try2, imports_try3, failHandler,
            tryStmt, runHandlers, pyEval, seq, pyPrint, pyRet, callFn]
        · simp [test_imports, imports_try1, imports_try2, imports_try3, failHandler,
            tryStmt, runHandlers, pyEval, seq, pyPrint, pyRet, callFn,
            strContains_append "❌ OptimizedAudioProcessor import failed: " e3]
      | ok u3 => simp [imports_firstExn] at h

/-- C1: no exception escapes a test function — each returns a Boolean on
every environment — and whenever the calls a test makes raise (the first
failing import for `test_imports`; the guarded suite for the others), the
test prints a failure line containing the exception text and returns
`False`. -/
theorem claim_C1 (env : Env) (e : Exn) :
    (resultIsBool (callFn (test_imports env)) = true ∧
     resultIsBool (callFn (test_audio_devices env)) = true ∧
     resultIsBool (callFn (test_basic_audio env)) = true ∧
     resultIsBool (callFn (test_config env)) = true ∧
     resultIsBool (callFn (test_audio_processor env)) = true ∧
     resultIsBool (callFn (test_audio_stream env)) = true) ∧
    (imports_firstExn env = some e →
      (callFn (test_imports env)).2 = Except.ok (PyVal.bool false) ∧
      ((callFn (test_imports env)).1.any fun l => strContains l e) = true) ∧
    (∀ out, audio_devices_suite env = (out, Flow.exn e) →
      callFn (test_audio_devices env) =
        ("\n🎧 Testing audio devices..." :: out ++ ["❌ Audio device test failed: " ++ e],
         Except.ok (PyVal.bool false)) ∧
      ((callFn (test_audio_devices env)).1.any fun l => strContains l e) = true) ∧
    (∀ out, basic_audio_suite env = (out, Flow.exn e) →
      callFn (test_basic_audio env) =
        ("\n🔊 Testing basic audio..." :: out ++ ["❌ Basic audio test failed: " ++ e],
         Except.ok (PyVal.bool false)) ∧
      ((callFn (test_basic_audio env)).1.any fun l => strContains l e) = true) ∧
    (∀ out, config_suite env = (out, Flow.exn e) →
      callFn (test_config env) =
        ("\n⚙️  Testing configuration..." :: out ++ ["❌ Config test failed: " ++ e],
         Except.ok (PyVal.bool false)) ∧
      ((callFn (test_config env)).1.any fun l => strContains l e) = true) ∧
    (∀ out, processor_suite env = (out, Flow.exn e) →
      callFn (test_audio_processor env) =
        ("\n🎵 Testing audio processor..." :: out ++ ["❌ Audio processor test failed: " ++ e],
         Except.ok (PyVal.bool false)) ∧
      ((callFn (test_audio_processor env)).1.any fun l => strContains l e) = true) ∧
    (∀ out, stream_suite env = (out, Flow.exn e) →
      callFn (test_audio_stream env) =
        ("\n🌊 Testing audio stream..." :: out ++ ["❌ Audio stream test failed: " ++ e],
         Except.ok (PyVal.bool false)) ∧
      ((callFn (test_audio_stream env)).1.any fun l => strContains l e) = true) := by
  refine ⟨⟨test_imports_resultIsBool env, test_audio_devices_resultIsBool env,
      test_basic_audio_resultIsBool env, test_config_resultIsBool env,
      test_audio_processor_resultIsBool env, test_audio_stream_resultIsBool env⟩,
    imports_exn env e, ?_, ?_, ?_, ?_, ?_⟩ <;>
  exact fun out h => ⟨guarded_exn _ _ _ out e h, guarded_exn_contains _ _ _ out e h⟩

/-- An environment in which every external call raises `boom`. -/
def envAllFail : Env :=
  Env.mk (Except.error "boom") (Except.error "boom") (Except.error "boom")
    (Except.error "boom") (Except.error "boom") (Except.error "boom")
    (Except.error "boom") (Except.error "boom") (Except.error "boom")
    (Except.error "boom") (Except.error "boom") (Except.error "boom")

theorem claim_C1_witness :
    ((callFn (test_imports envAllFail)).2 = Except.ok (PyVal.bool false) ∧
     ((callFn (test_imports envAllFail)).1.any fun l => strContains l "boom") = true) ∧
    callFn (test_audio_devices envAllFail) =
      ("\n🎧 Testing audio devices..." :: [] ++ ["❌ Audio device test failed: " ++ "boom"],
       Except.ok (PyVal.bool false)) ∧
    callFn (test_basic_audio envAllFail) =
      ("\n🔊 Testing basic audio..." :: [] ++ ["❌ Basic audio test failed: " ++ "boom"],
       Except.ok (PyVal.bool false)) ∧
    callFn (test_config envAllFail) =
      ("\n⚙️  Testing configuration..." :: [] ++ ["❌ Config test failed: " ++ "boom"],
       Except.ok (PyVal.bool false)) ∧
    callFn (test_audio_processor envAllFail) =
      ("\n🎵 Testing audio processor..." :: [] ++ ["❌ Audio processor test failed: " ++ "boom"],
       Except.ok (PyVal.bool false)) ∧
    callFn (test_audio_stream envAllFail) =
      ("\n🌊 Testing audio stream..." :: [] ++ ["❌ Audio stream test failed: " ++ "boom"],
       Except.ok (PyVal.bool false)) := by
  obtain ⟨hb, h1, h2, h3, h4, h5, h6⟩ := claim_C1 envAllFail "boom"
  exact ⟨h1 rfl, (h2 [] rfl).1, (h3 [] rfl).1, (h4 [] rfl).1, (h5 [] rfl).1, (h6 [] rfl).1⟩

/-! ## Main's loop is resilient and its closing message branches on the
overall result -/

theorem runTestsLoop_names (env : Env) (fs : List (String × (Env → Stmt))) :
    (runTestsLoop env fs).2.map Prod.fst = fs.map Prod.fst := by
  induction fs with
  | nil => rfl
  | cons nf rest ih =>
    rcases nf with ⟨name, f⟩
    simp [runTestsLoop, recordOutcome_name, ih]

/-- C5: main's loop records one entry per listed test, keeping names and
order, whatever the tests do; a test whose call raises is caught — the
crash line is printed and `False` is recorded — and the loop goes on, so
all six tests of the script appear exactly once in the summary. -/
theorem claim_C5 (env : Env) (fs : List (String × (Env → Stmt)))
    (name : String) (f : Env → Stmt) (out : Output) (e : Exn) :
    (runTestsLoop env fs).2.map Prod.fst = fs.map Prod.fst ∧
    (callFn (f env) = (out, Except.error e) →
      recordOutcome name (callFn (f env)) =
        (out ++ ["❌ " ++ name ++ " test crashed: " ++ e], (name, PyVal.bool false))) ∧
    (runAll env).2.map Prod.fst =
      ["Imports", "Audio Devices", "Basic Audio", "Configuration",
       "Audio Processor", "Audio Streams"] := by
  refine ⟨runTestsLoop_names env fs, fun h => by rw [h]; rfl, ?_⟩
  simp [runAll, testList, runTestsLoop, recordOutcome_name]

/-- A hypothetical test function that raises instead of returning. -/
def crashingTest : Env → Stmt := fun _ => ([], Flow.exn "boom")

theorem claim_C5_witness :
    (runTestsLoop envAllFail [("Crash", crashingTest)]).2.map Prod.fst = ["Crash"] ∧
    recordOutcome "Crash" (callFn (crashingTest envAllFail)) =
      ([] ++ ["❌ " ++ "Crash" ++ " test crashed: " ++ "boom"], ("Crash", PyVal.bool false)) := by
  obtain ⟨h1, h2, h3⟩ :=
    claim_C5 envAllFail [("Crash", crashingTest)] "Crash" crashingTest [] "boom"
  exact ⟨h1, h2 rfl⟩

theorem runAll_envAllFail_snd :
    (runAll envAllFail).2 =
      [("Imports", PyVal.bool false), ("Audio Devices", PyVal.bool false),
       ("Basic Audio", PyVal.bool false), ("Configuration", PyVal.bool false),
       ("Audio Processor", PyVal.bool false), ("Audio Streams", PyVal.bool false)] := rfl

/-- C6: the closing message of main prints the "All tests passed" lines
(including the interactive-CLI hint) exactly when every recorded result is
truthy; otherwise it prints the common-issues list, which names ALSA
configuration problems.  The last conjunct places the closing lines at the
end of main's output. -/
theorem claim_C6 (env : Env) :
    (("🎉 All tests passed! The system should work." ∈
        closingLines (summaryLoop (runAll env).2).2 (runAll env).2.length ∧
      "   python3 interactive_cli.py" ∈
        closingLines (summaryLoop (runAll env).2).2 (runAll env).2.length) ↔
      ∀ en ∈ (runAll env).2, en.2.truthy = true) ∧
    ((¬ ∀ en ∈ (runAll env).2, en.2.truthy = true) →
      "   - ALSA configuration problems" ∈
        closingLines (summaryLoop (runAll env).2).2 (runAll env).2.length) ∧
    main env =
      mainHeader ++ (runAll env).1 ++
      ["\n" ++ eqLine, "📊 TEST RESULTS SUMMARY", eqLine] ++
      (summaryLoop (runAll env).2).1 ++
      ["\nOverall: " ++ toString (summaryLoop (runAll env).2).2 ++ "/" ++
        toString (runAll env).2.length ++ " tests passed"] ++
      closingLines (summaryLoop (runAll env).2).2 (runAll env).2.length := by
  have hpt : ((summaryLoop (runAll env).2).2 = (runAll env).2.length) ↔
      ∀ en ∈ (runAll env).2, en.2.truthy = true := by
    rw [summaryLoop_snd]
    exact List.filter_length_eq_length
  refine ⟨⟨?_, ?_⟩, ?_, rfl⟩
  · rintro ⟨h1, _⟩
    by_contra hno
    have hne : (summaryLoop (runAll env).2).2 ≠ (runAll env).2.length := fun h => hno (hpt.mp h)
    rw [closingLines, if_neg hne] at h1
    simp at h1
  · intro hall
    rw [closingLines, if_pos (hpt.mpr hall)]
    exact ⟨by simp, by simp⟩
  · intro hno
    have hne : (summaryLoop (runAll env).2).2 ≠ (runAll env).2.length := fun h => hno (hpt.mp h)
    rw [closingLines, if_neg hne]
    simp

theorem claim_C6_witness :
    "   - ALSA configuration problems" ∈
      closingLines (summaryLoop (runAll envAllFail).2).2 (runAll envAllFail).2.length := by
  refine (claim_C6 envAllFail).2.1 ?_
  intro hall
  have h := hall ("Imports", PyVal.bool false) (by rw [runAll_envAllFail_snd]; simp)
  simp [PyVal.truthy] at h

/-! ## The processor is only constructed and asked for its status -/

/-- The environment with the processor's effect-processing behaviour
replaced by an arbitrary one. -/
def withProcessBehavior (env : Env) (p : Except Exn Unit) : Env :=
  { env with process_audio := p }

/-- A status dict whose keys other than `buffer_size`, `sample_rate` and
`active_effects` are replaced by arbitrary ones. -/
def statusWithOther (s : Status) (o : List (String × String)) : Status :=
  { s with other := o }

/-- The environment with the unread keys of the status dict replaced. -/
def withStatusOther (env : Env) (o : List (String × String)) : Env :=
  { env with get_status := Except.map (fun s => statusWithOther s o) env.get_status }

/-- C7: the script's behaviour is invariant under any change to the
processor's effect-processing behaviour and to the status keys other than
`buffer_size`, `sample_rate` and `active_effects`: it only constructs the
processor and reads those three keys of `get_status()`. -/
theorem claim_C7 (env : Env) (p : Except Exn Unit) (o : List (String × String)) :
    main (withProcessBehavior env p) = main env ∧
    main (withStatusOther env o) = main env := by
  constructor
  · rfl
  · have hps : test_audio_processor (withStatusOther env o) = test_audio_processor env := by
      cases hs : env.get_status with
      | error e =>
        simp [test_audio_processor, processor_suite, withStatusOther, pyEval, hs, Except.map]
      | ok s =>
        simp [test_audio_processor, processor_suite, withStatusOther, pyEval, hs, Except.map,
          statusWithOther]
    have h1 : test_imports (withStatusOther env o) = test_imports env := rfl
    have h2 : test_audio_devices (withStatusOther env o) = test_audio_devices env := rfl
    have h3 : test_basic_audio (withStatusOther env o) = test_basic_audio env := rfl
    have h4 : test_config (withStatusOther env o) = test_config env := rfl
    have h5 : test_audio_stream (withStatusOther env o) = test_audio_stream env := rfl
    simp only [main, runAll, testList, runTestsLoop]
    rw [hps, h1, h2, h3, h4, h5]

/-! ## Scarlett detection -/

/-- All four dict accesses on a device succeed. -/
def devFieldsOk (d : Device) : Bool :=
  okB d.name && okB d.max_inputs && okB d.max_outputs && okB d.default_samplerate

/-- The name of a device whose `name` access succeeds. -/
def nameOf (d : Device) : String :=
  match d.name with
  | Except.ok n => n
  | Except.error _ => ""

/-- Following the spec's words: a device counts as the Scarlett iff its
lowercased name contains the substring `scarlett` or the substring `2i2`. -/
def isScarlettSpec (n : String) : Bool :=
  strContains (strLower n) "scarlett" || strContains (strLower n) "2i2"

theorem devFieldsOk_name (d : Device) (h : devFieldsOk d = true) : okB d.name = true := by
  rcases d with ⟨n, mi, mo, sr⟩
  cases n
  · simp [devFieldsOk, okB] at h
  · rfl

/-- The comprehension of line 62 computes exactly the devices the spec
calls Scarletts, provided every name access succeeds. -/
theorem pyFilter_scarlett (devices : List Device) (h : ∀ d ∈ devices, okB d.name = true) :
    pyFilter scarlettCond devices =
      Except.ok (devices.filter fun d => isScarlettSpec (nameOf d)) := by
  induction devices with
  | nil => rfl
  | cons d ds ih =>
    have hd := h d (List.mem_cons_self d ds)
    have hds := ih fun d2 hd2 => h d2 (List.mem_cons_of_mem d hd2)
    cases hn : d.name with
    | error e => rw [hn] at hd; simp [okB] at hd
    | ok n =>
      simp [pyFilter, scarlettCond, hn, hds, nameOf, isScarlettSpec, List.filter_cons]

theorem deviceLoopBody_ok (i : Nat) (d : Device) (h : devFieldsOk d = true) :
    (deviceLoopBody i d).2 = Flow.next := by
  rcases d with ⟨n, mi, mo, sr⟩
  cases n <;> cases mi <;> cases mo <;> cases sr <;>
    simp_all [devFieldsOk, okB, deviceLoopBody, pyEval, seq, pyPrint]

theorem pyForAux_ok (ds : List Device) (i : Nat) (h : ∀ d ∈ ds, devFieldsOk d = true) :
    (pyForAux deviceLoopBody i ds).2 = Flow.next := by
  induction ds generalizing i with
  | nil => rfl
  | cons d ds ih =>
    have hd := deviceLoopBody_ok i d (h d (List.mem_cons_self d ds))
    rcases hb : deviceLoopBody i d with ⟨out, fl⟩
    rw [hb] at hd
    simp only at hd
    subst hd
    simp only [pyForAux, hb]
    exact ih (i + 1) fun d2 hd2 => h d2 (List.mem_cons_of_mem d hd2)

/-- C4: with all device accesses succeeding, the script treats exactly the
spec-matching devices as Scarletts; if at least one matches, the success
line naming the first match is printed; otherwise the "not found" warning
is printed. -/
theorem claim_C4 (env : Env) (devices : List Device) (d0 : Device) :
    env.import_sounddevice = Except.ok () →
    env.query_devices = Except.ok devices →
    (∀ d ∈ devices, devFieldsOk d = true) →
    pyFilter scarlettCond devices =
      Except.ok (devices.filter fun d => isScarlettSpec (nameOf d)) ∧
    ((devices.filter fun d => isScarlettSpec (nameOf d)).head? = some d0 →
      ("\n✅ Found Scarlett 2i2: " ++ nameOf d0) ∈ (callFn (test_audio_devices env)).1) ∧
    ((devices.filter fun d => isScarlettSpec (nameOf d)) = [] →
      "\n⚠️  Scarlett 2i2 not found - check USB connection" ∈
        (callFn (test_audio_devices env)).1) := by
  intro hsd hq hok
  have hnames : ∀ d ∈ devices, okB d.name = true := fun d hd => devFieldsOk_name d (hok d hd)
  have hfilter := pyFilter_scarlett devices hnames
  have hnext := pyForAux_ok devices 0 hok
  rcases hloop : pyForAux deviceLoopBody 0 devices with ⟨outL, flL⟩
  rw [hloop] at hnext
  simp only at hnext
  subst hnext
  refine ⟨hfilter, ?_, ?_⟩
  · intro hhead
    cases hf : devices.filter (fun d => isScarlettSpec (nameOf d)) with
    | nil => rw [hf] at hhead; simp at hhead
    | cons dm rest =>
      rw [hf] at hhead
      simp only [List.head?_cons, Option.some.injEq] at hhead
      subst hhead
      have hmemf : dm ∈ devices.filter fun d => isScarlettSpec (nameOf d) := by
        rw [hf]; exact List.mem_cons_self dm rest
      have hmem : dm ∈ devices := List.mem_of_mem_filter hmemf
      cases hn : dm.name with
      | error e => have := hnames dm hmem; rw [hn] at this; simp [okB] at this
      | ok n =>
        have hrep : scarlettReport devices = (["\n✅ Found Scarlett 2i2: " ++ n], Flow.next) := by
          simp [scarlettReport, pyEval, hfilter, hf, hn, pyPrint]
        have hsuite : audio_devices_suite env =
            (("Found " ++ toString devices.length ++ " audio devices:") ::
              outL ++ ["\n✅ Found Scarlett 2i2: " ++ n], Flow.ret (PyVal.bool true)) := by
          simp [audio_devices_suite, pyEval, hsd, hq, hloop, hrep, seq, pyPrint, pyRet]
        rw [test_audio_devices, guarded_ok _ _ _ _ hsuite]
        simp [nameOf, hn]
  · intro hf
    have hrep : scarlettReport devices =
        (["\n⚠️  Scarlett 2i2 not found - check USB connection"], Flow.next) := by
      simp [scarlettReport, pyEval, hfilter, hf, pyPrint]
    have hsuite : audio_devices_suite env =
        (("Found " ++ toString devices.length ++ " audio devices:") ::
          outL ++ ["\n⚠️  Scarlett 2i2 not found - check USB connection"],
         Flow.ret (PyVal.bool true)) := by
      simp [audio_devices_suite, pyEval, hsd, hq, hloop, hrep, seq, pyPrint, pyRet]
    rw [test_audio_devices, guarded_ok _ _ _ _ hsuite]
    simp

/-- A device as the Scarlett 2i2 would enumerate. -/
def scarlettDevice : Device :=
  Device.mk (Except.ok "Scarlett 2i2 USB") (Except.ok "2") (Except.ok "2") (Except.ok "44100.0")

/-- An environment whose device list contains the Scarlett. -/
def envScarlett : Env :=
  Env.mk (Except.ok ()) (Except.ok ()) (Except.ok ())
    (Except.ok [scarlettDevice]) (Except.ok ()) (Except.ok ())
    (Except.ok (ConfigRec.mk true "48000" "1024" "120")) (Except.ok ())
    (Except.ok (Status.mk "1024" "48000" "[]" [])) (Except.ok ())
    (Except.ok ()) (Except.ok ())

theorem claim_C4_witness :
    ("\n✅ Found Scarlett 2i2: " ++ nameOf scarlettDevice) ∈
      (callFn (test_audio_devices envScarlett)).1 := by
  refine ((claim_C4 envScarlett [scarlettDevice] scarlettDevice rfl rfl ?_).2.1 ?_)
  · intro d hd
    rw [List.mem_singleton] at hd
    subst hd
    rfl
  · rfl

/-! ## The device loop's output is not retracted on a mid-loop failure -/

/-- Splitting the device loop: once the iterations over `xs` all fall
through, the loop over `xs ++ ys` keeps the output of the `xs` iterations
and continues over `ys` with the shifted index. -/
theorem pyForAux_append (xs ys : List Device) (i : Nat)
    (h : (pyForAux deviceLoopBody i xs).2 = Flow.next) :
    pyForAux deviceLoopBody i (xs ++ ys) =
      ((pyForAux deviceLoopBody i xs).1 ++ (pyForAux deviceLoopBody (i + xs.length) ys).1,
       (pyForAux deviceLoopBody (i + xs.length) ys).2) := by
  induction xs generalizing i with
  | nil => simp [pyForAux, skip]
  | cons d ds ih =>
    rcases hb : deviceLoopBody i d with ⟨out, fl⟩
    cases fl with
    | next =>
      have hds : (pyForAux deviceLoopBody (i + 1) ds).2 = Flow.next := by
        simp only [pyForAux, hb] at h
        exact h
      have hih := ih (i + 1) hds
      have hstep : ∀ (l : List Device), pyForAux deviceLoopBody i (d :: l) =
          (out ++ (pyForAux deviceLoopBody (i + 1) l).1,
           (pyForAux deviceLoopBody (i + 1) l).2) := by
        intro l
        simp only [pyForAux, hb]
      have hlen : i + (d :: ds).length = i + 1 + ds.length := by
        simp only [List.length_cons]
        omega
      have hlen2 : i + (ds.length + 1) = i + 1 + ds.length := by omega
      rw [List.cons_append, hstep, hstep, hih]
      simp [List.append_assoc, hlen, hlen2]
    | ret v => simp [pyForAux, hb] at h
    | exn e => simp [pyForAux, hb] at h

/-- C9: if, while iterating over the devices, a dict access on some device
raises (here: `max_inputs` after the name was printed), everything printed
for the earlier devices — and the name line of the failing device — stays
in the output, followed only by the failure message; the test then returns
`False`.  Nothing printed is retracted. -/
theorem claim_C9 (env : Env) (devs1 devs2 : List Device) (d : Device) (n : String) (e : Exn) :
    env.import_sounddevice = Except.ok () →
    env.query_devices = Except.ok (devs1 ++ d :: devs2) →
    (pyForAux deviceLoopBody 0 devs1).2 = Flow.next →
    d.name = Except.ok n →
    d.max_inputs = Except.error e →
    callFn (test_audio_devices env) =
      ("\n🎧 Testing audio devices..." ::
        ("Found " ++ toString (devs1 ++ d :: devs2).length ++ " audio devices:") ::
        ((pyForAux deviceLoopBody 0 devs1).1 ++
          ["  " ++ toString devs1.length ++ ": " ++ n,
           "❌ Audio device test failed: " ++ e]),
       Except.ok (PyVal.bool false)) := by
  intro hsd hq hnext hn hmi
  have hbody : deviceLoopBody devs1.length d =
      (["  " ++ toString devs1.length ++ ": " ++ n], Flow.exn e) := by
    simp [deviceLoopBody, pyEval, hn, hmi, seq, pyPrint]
  have htail : pyForAux deviceLoopBody (0 + devs1.length) (d :: devs2) =
      (["  " ++ toString devs1.length ++ ": " ++ n], Flow.exn e) := by
    rw [Nat.zero_add]
    simp only [pyForAux, hbody]
  have hsplit := pyForAux_append devs1 (d :: devs2) 0 hnext
  rw [htail] at hsplit
  have hsuite : audio_devices_suite env =
      (("Found " ++ toString (devs1 ++ d :: devs2).length ++ " audio devices:") ::
        ((pyForAux deviceLoopBody 0 devs1).1 ++
          ["  " ++ toString devs1.length ++ ": " ++ n]),
       Flow.exn e) := by
    rcases hloop : pyForAux deviceLoopBody 0 devs1 with ⟨outL, flL⟩
    rw [hloop] at hsplit hnext
    simp only at hnext
    subst hnext
    simp [audio_devices_suite, pyEval, hsd, hq, hsplit, seq, pyPrint]
  rw [test_audio_devices, guarded_exn _ _ _ _ _ hsuite]
  simp

/-- A device whose `max_inputs` access raises after its name printed. -/
def badDevice : Device :=
  Device.mk (Except.ok "USB Audio") (Except.error "KeyError") (Except.ok "2") (Except.ok "44100.0")

/-- An environment enumerating a good device, then the failing one. -/
def envBadDevice : Env :=
  Env.mk (Except.ok ()) (Except.ok ()) (Except.ok ())
    (Except.ok [scarlettDevice, badDevice]) (Except.ok ()) (Except.ok ())
    (Except.ok (ConfigRec.mk true "48000" "1024" "120")) (Except.ok ())
    (Except.ok (Status.mk "1024" "48000" "[]" [])) (Except.ok ())
    (Except.ok ()) (Except.ok ())

theorem claim_C9_witness :
    callFn (test_audio_devices envBadDevice) =
      ("\n🎧 Testing audio devices..." ::
        ("Found " ++ toString ([scarlettDevice] ++ badDevice :: []).length ++ " audio devices:") ::
        ((pyForAux deviceLoopBody 0 [scarlettDevice]).1 ++
          ["  " ++ toString ([scarlettDevice] : List Device).length ++ ": " ++ "USB Audio",
           "❌ Audio device test failed: " ++ "KeyError"]),
       Except.ok (PyVal.bool false)) :=
  claim_C9 envBadDevice [scarlettDevice] [] badDevice "USB Audio" "KeyError"
    rfl rfl rfl rfl rfl

end PiAudioDebug
